import Mathlib

/-!
Verification development for the vigilo monitoring agent.

The definitions below are a shallow embedding of the Python sources
(src/notifier.py, src/system_mon.py, src/docker_mon.py, src/heartbeat.py,
src/main.py).  Wall-clock times and percentages are modelled as rationals,
HTTP interactions as an explicit outcome value supplied by the environment,
and Python dictionaries as association lists with insert-or-overwrite
semantics (matching dict assignment).
-/

set_option autoImplicit false
set_option linter.unusedVariables false

namespace Vigilo

/-- Outcome of one HTTP request made by the agent: a concrete status code,
or one of the exception classes caught by the Python code
(requests Timeout, requests ConnectionError, any other exception). -/
inductive HttpResult where
  | status (code : Nat)
  | timeout
  | connectionError
  | otherError
deriving DecidableEq

/-- Success test used by Notifier.send_message:
`response.status_code == 200 or response.status_code == 201`. -/
def HttpResult.ok2 : HttpResult → Bool
  | HttpResult.status code => decide (code = 200 ∨ code = 201)
  | _ => false

/-- Success test used by Heartbeat.send: `response.status_code in [200, 201, 204]`. -/
def HttpResult.okHb : HttpResult → Bool
  | HttpResult.status code => decide (code = 200 ∨ code = 201 ∨ code = 204)
  | _ => false

/-- Lookup in an association list (Python `d[k]` / `k in d`); keys are unique
when the list is built with `insertA`, so first match is the entry. -/
def lookupA {α : Type} : List (String × α) → String → Option α
  | [], _ => none
  | (k, v) :: rest, key => if k = key then some v else lookupA rest key

/-- Python dict assignment `d[k] = v`: overwrite in place when the key is
present, append otherwise. -/
def insertA {α : Type} : List (String × α) → String → α → List (String × α)
  | [], key, v => [(key, v)]
  | (k, w) :: rest, key, v =>
      if k = key then (k, v) :: rest else (k, w) :: insertA rest key v

theorem lookupA_insertA_self {α : Type} (m : List (String × α)) (k : String) (v : α) :
    lookupA (insertA m k v) k = some v := by
  induction m with
  | nil => simp [insertA, lookupA]
  | cons p rest ih =>
      obtain ⟨k1, v1⟩ := p
      by_cases h : k1 = k
      · simp [insertA, lookupA, h]
      · simp [insertA, lookupA, h, ih]

theorem lookupA_insertA_ne {α : Type} (m : List (String × α)) (k k1 : String) (v : α)
    (h : k1 ≠ k) : lookupA (insertA m k v) k1 = lookupA m k1 := by
  induction m with
  | nil => simp [insertA, lookupA, Ne.symm h]
  | cons p rest ih =>
      obtain ⟨k2, v2⟩ := p
      by_cases h2 : k2 = k
      · subst h2
        simp [insertA, lookupA, Ne.symm h]
      · simp only [insertA, if_neg h2, lookupA]
        by_cases h3 : k2 = k1
        · simp [h3]
        · simp [h3, ih]

/-- Alert record as built by the monitors (a Python dict with a fixed set of
possible fields; absent optional fields are `none`). -/
structure Alert where
  type : String
  severity : String
  message : String
  container : Option String := none
  status : Option String := none
  value : Option ℚ := none
  threshold : Option ℚ := none
  details : Option String := none
deriving DecidableEq

/-- Python truthiness of the optional `alert_type` argument of send_message:
`None` and the empty string are falsy. -/
def optStringTruthy : Option String → Bool
  | none => false
  | some s => decide (s ≠ "")

/-- State of src/notifier.py class Notifier: the configured cooldown and the
`_last_alert_sent` dictionary (alert type to timestamp of last recorded send).
The connection settings (URL, token, instance, number) only feed the HTTP
request and are not part of the modelled state. -/
structure Notifier where
  cooldown_seconds : ℚ
  last_alert_sent : List (String × ℚ)
deriving DecidableEq

/-- notifier.py `_can_send_alert`: true when the type was never recorded or the
elapsed time since the recorded send reaches the cooldown. -/
def Notifier.can_send_alert (n : Notifier) (alert_type : String) (current_time : ℚ) : Bool :=
  match lookupA n.last_alert_sent alert_type with
  | none => true
  | some last => decide (current_time - last ≥ n.cooldown_seconds)

/-- notifier.py `_mark_alert_sent`: record the current time for the type. -/
def Notifier.mark_alert_sent (n : Notifier) (alert_type : String) (now : ℚ) : Notifier :=
  { n with last_alert_sent := insertA n.last_alert_sent alert_type now }

/-- notifier.py `send_message`.  The wall-clock time of the call and the HTTP
outcome of the request are passed in by the environment.  The cooldown check
runs only when not forced and the alert type is truthy; `_mark_alert_sent`
runs only on a 200/201 response and a truthy alert type. -/
def Notifier.send_message (n : Notifier) (message : String) (force : Bool)
    (alert_type : Option String) (now : ℚ) (resp : HttpResult) : Bool × Notifier :=
  if !force && optStringTruthy alert_type
      && !(n.can_send_alert (alert_type.getD "") now) then
    (false, n)
  else
    match resp with
    | HttpResult.status code =>
        if code = 200 ∨ code = 201 then
          (true,
           if optStringTruthy alert_type then n.mark_alert_sent (alert_type.getD "") now else n)
        else (false, n)
    | _ => (false, n)

/-- notifier.py `send_alert`: format the alert message and delegate to
`send_message` with the alert type and the default `force = False`.
The human-readable timestamp interpolated by the Python code is irrelevant
to the modelled behaviour and elided from the formatted text. -/
def Notifier.send_alert (n : Notifier) (a : Alert) (now : ℚ) (resp : HttpResult) :
    Bool × Notifier :=
  n.send_message ("ALERTA VIGILO " ++ a.message) false (some a.type) now resp

/-- Helper for `send_alerts`: the environment function gives, for the i-th
alert of the batch, the wall-clock time of its send attempt and the HTTP
outcome of the request. -/
def Notifier.send_alerts_from (n : Notifier) (alerts : List Alert)
    (env : ℕ → ℚ × HttpResult) (i : ℕ) : ℕ × Notifier :=
  match alerts with
  | [] => (0, n)
  | a :: rest =>
      let res := n.send_alert a (env i).1 (env i).2
      let restRes := res.2.send_alerts_from rest env (i + 1)
      (if res.1 then restRes.1 + 1 else restRes.1, restRes.2)

/-- notifier.py `send_alerts`: attempt every alert of the batch in order and
return the number of successful sends (the `time.sleep(1)` pacing between
sends has no modelled effect). -/
def Notifier.send_alerts (n : Notifier) (alerts : List Alert)
    (env : ℕ → ℚ × HttpResult) : ℕ × Notifier :=
  n.send_alerts_from alerts env 0

/-- notifier.py `send_report`: always `force = True`, no alert type. -/
def Notifier.send_report (n : Notifier) (report_text : String) (now : ℚ)
    (resp : HttpResult) : Bool × Notifier :=
  n.send_message ("RELATORIO VIGILO " ++ report_text) true none now resp

/-- notifier.py `send_startup_notification`: always `force = True`, no alert type. -/
def Notifier.send_startup_notification (n : Notifier) (hostname : String) (now : ℚ)
    (resp : HttpResult) : Bool × Notifier :=
  n.send_message ("Vigilo Iniciado Host: " ++ hostname) true none now resp

/-- The three force-send call sites of the code base: periodic reports
(notifier.send_report), the startup notice (send_startup_notification) and
the shutdown notice (main.py `_shutdown`, a direct `send_message` with
`force=True` and no alert type). -/
inductive ForceSend where
  | report (text : String)
  | startup (hostname : String)
  | shutdown (msg : String)

/-- Run one force-send call site against the notifier. -/
def runForceSend (n : Notifier) : ForceSend → ℚ → HttpResult → Bool × Notifier
  | ForceSend.report t, now, r => n.send_report t now r
  | ForceSend.startup h, now, r => n.send_startup_notification h now r
  | ForceSend.shutdown m, now, r => n.send_message m true none now r

/-- Run a sequence of force sends, collecting each boolean result. -/
def runForceSends (n : Notifier) : List (ForceSend × ℚ × HttpResult) → List Bool × Notifier
  | [] => ([], n)
  | (f, t, r) :: rest =>
      let res := runForceSend n f t r
      let restRes := runForceSends res.2 rest
      (res.1 :: restRes.1, restRes.2)

/-- Result of system_mon.py `get_system_stats`: either the full metrics
dictionary or the error dictionary built in the exception handler
(which carries only the error text and a timestamp). -/
inductive SystemStats where
  | ok (cpu_percent ram_percent disk_percent : ℚ)
      (ram_used_gb ram_total_gb disk_used_gb disk_total_gb : ℚ)
      (uptime_seconds : ℤ) (process_count : ℕ) (timestamp : ℤ)
  | err (error : String) (timestamp : ℤ)
deriving DecidableEq

/-- Configuration of src/system_mon.py class SystemMonitor. -/
structure SystemMonitor where
  CPU_THRESHOLD : ℚ
  RAM_THRESHOLD : ℚ
  DISK_THRESHOLD : ℚ
deriving DecidableEq

/-- system_mon.py `check_thresholds`: empty on an error-marked stats dict,
otherwise one alert per metric whose sampled value strictly exceeds its
threshold, appended in the fixed order CPU, RAM, DISK. -/
def SystemMonitor.check_thresholds (m : SystemMonitor) (stats : SystemStats) : List Alert :=
  match stats with
  | SystemStats.err _ _ => []
  | SystemStats.ok cpu ram disk ram_used ram_total disk_used disk_total _ _ _ =>
      (if cpu > m.CPU_THRESHOLD then
        [{ type := "CPU_CRITICAL", severity := "high",
           message := "CPU em " ++ toString cpu ++ " limite " ++ toString m.CPU_THRESHOLD,
           value := some cpu, threshold := some m.CPU_THRESHOLD }]
       else [])
      ++ (if ram > m.RAM_THRESHOLD then
        [{ type := "RAM_CRITICAL", severity := "high",
           message := "RAM em " ++ toString ram ++ " limite " ++ toString m.RAM_THRESHOLD,
           value := some ram, threshold := some m.RAM_THRESHOLD,
           details := some (toString ram_used ++ "GB / " ++ toString ram_total ++ "GB") }]
       else [])
      ++ (if disk > m.DISK_THRESHOLD then
        [{ type := "DISK_CRITICAL", severity := "critical",
           message := "DISCO em " ++ toString disk ++ " limite " ++ toString m.DISK_THRESHOLD,
           value := some disk, threshold := some m.DISK_THRESHOLD,
           details := some (toString disk_used ++ "GB / " ++ toString disk_total ++ "GB") }]
       else [])

/-- Container record as assembled by docker_mon.py `get_all_containers`:
the `health` key is present only when the container reports a health status. -/
structure ContainerInfo where
  id : String
  name : String
  status : String
  image : String
  health : Option String := none
deriving DecidableEq

/-- State of src/docker_mon.py class DockerMonitor: the configured watch list,
whether the Docker client is reachable this cycle (`is_connected`), and the
container records the daemon reports while reachable. -/
structure DockerMonitor where
  watch_containers : List String
  connected : Bool
  containers : List ContainerInfo
deriving DecidableEq

/-- docker_mon.py `is_connected` (client present and ping succeeds). -/
def DockerMonitor.is_connected (m : DockerMonitor) : Bool :=
  m.connected

/-- docker_mon.py `get_all_containers`: empty when disconnected, otherwise the
records reported by the daemon. -/
def DockerMonitor.get_all_containers (m : DockerMonitor) : List ContainerInfo :=
  if m.is_connected then m.containers else []

/-- The dict comprehension of `check_watched_containers`
(a name-keyed map over the container list; duplicates overwrite). -/
def containerMap (cs : List ContainerInfo) : List (String × ContainerInfo) :=
  cs.foldl (fun acc c => insertA acc c.name c) []

/-- Body of the per-name loop of docker_mon.py `check_watched_containers`:
a not-found alert when the name is absent (then `continue`); otherwise an
independent status check and an independent health check, each appending
its alert. -/
def watchedNameChecks (cmap : List (String × ContainerInfo)) (watched_name : String) :
    List Alert :=
  match lookupA cmap watched_name with
  | none =>
      [{ type := "CONTAINER_NOT_FOUND", severity := "critical",
         container := some watched_name,
         message := "Container " ++ watched_name ++ " nao encontrado" }]
  | some c =>
      (if c.status ≠ "running" then
        [{ type := "CONTAINER_NOT_RUNNING", severity := "critical",
           container := some watched_name, status := some c.status,
           message := "Container " ++ watched_name ++ " esta " ++ c.status }]
       else [])
      ++ (if c.health = some "unhealthy" then
        [{ type := "CONTAINER_UNHEALTHY", severity := "high",
           container := some watched_name,
           message := "Container " ++ watched_name ++ " esta UNHEALTHY" }]
       else [])

/-- docker_mon.py `check_watched_containers`: empty watch list short-circuits
to no alerts; a disconnected client yields the single connection-error alert;
otherwise the loop appends the per-name alerts in watch-list order. -/
def DockerMonitor.check_watched_containers (m : DockerMonitor) : List Alert :=
  if m.watch_containers = [] then []
  else if !m.is_connected then
    [{ type := "DOCKER_CONNECTION_ERROR", severity := "critical",
       message := "Nao foi possivel conectar ao Docker" }]
  else
    m.watch_containers.foldl
      (fun alerts w => alerts ++ watchedNameChecks (containerMap m.get_all_containers) w) []

/-- State of src/heartbeat.py class Heartbeat (send counters; the webhook URL
and timeout only feed the HTTP request). -/
structure Heartbeat where
  hostname : String
  consecutive_failures : ℕ
  total_sent : ℕ
  total_failed : ℕ
deriving DecidableEq

/-- heartbeat.py `_handle_failure`. -/
def Heartbeat.handle_failure (h : Heartbeat) : Heartbeat :=
  { h with consecutive_failures := h.consecutive_failures + 1,
           total_failed := h.total_failed + 1 }

/-- heartbeat.py `send`: 200/201/204 counts as success and resets the
consecutive-failure counter; every other outcome is a handled failure. -/
def Heartbeat.send (h : Heartbeat) (resp : HttpResult) : Bool × Heartbeat :=
  if resp.okHb then
    (true, { h with total_sent := h.total_sent + 1, consecutive_failures := 0 })
  else
    (false, h.handle_failure)

/-- The `event_data` payload of heartbeat.py `send_alert_event`. -/
structure EventPayload where
  alert_count : ℕ
  alert_types : List String
deriving DecidableEq

/-- heartbeat.py `send_alert_event` (through `send_event` and `send`):
returns the delivery result, the updated counters, and the aggregate
payload that was put on the wire. -/
def Heartbeat.send_alert_event (h : Heartbeat) (alert_count : ℕ)
    (alert_types : List String) (resp : HttpResult) : Bool × Heartbeat × EventPayload :=
  let res := h.send resp
  (res.1, res.2, { alert_count := alert_count, alert_types := alert_types })

/-- Round half to even at integer precision; the abstraction of the rounding
performed by the Python built-in `round`. -/
def roundHalfEven (q : ℚ) : ℤ :=
  if q - ⌊q⌋ < 1 / 2 then ⌊q⌋
  else if q - ⌊q⌋ > 1 / 2 then ⌊q⌋ + 1
  else if ⌊q⌋ % 2 = 0 then ⌊q⌋ else ⌊q⌋ + 1

/-- Python `round(x, 2)` on an exact rational. -/
def round2 (q : ℚ) : ℚ :=
  (roundHalfEven (q * 100) : ℚ) / 100

/-- The dictionary returned by heartbeat.py `get_stats`. -/
structure HeartbeatStats where
  hostname : String
  total_sent : ℕ
  total_failed : ℕ
  consecutive_failures : ℕ
  success_rate : ℚ
deriving DecidableEq

/-- heartbeat.py `get_stats`: success rate defaults to 0 and is computed only
when at least one attempt was made; the result is rounded to two decimals. -/
def Heartbeat.get_stats (h : Heartbeat) : HeartbeatStats :=
  let total_attempts := h.total_sent + h.total_failed
  let success_rate : ℚ :=
    if total_attempts > 0 then ((h.total_sent : ℚ) / (total_attempts : ℚ)) * 100 else 0
  { hostname := h.hostname, total_sent := h.total_sent, total_failed := h.total_failed,
    consecutive_failures := h.consecutive_failures, success_rate := round2 success_rate }

/-- The mutable counters of main.py class VigiloAgent. -/
structure AgentState where
  check_count : ℕ
  last_report_time : ℚ
  running : Bool
deriving DecidableEq

/-- main.py `_should_send_report`: due when the time elapsed since the last
recorded report reaches the configured interval. -/
def should_send_report (last_report_time now report_interval : ℚ) : Bool :=
  decide (now - last_report_time ≥ report_interval)

/-- Step 6 of main.py `_perform_check` (the periodic-report block): when due,
attempt the send; `last_report_time` is overwritten (with the fresh time
`now2` taken after the send) only when `send_report` returned True. -/
def report_step (s : AgentState) (now report_interval : ℚ) (send_ok : Bool)
    (now2 : ℚ) : AgentState :=
  if should_send_report s.last_report_time now report_interval then
    if send_ok then { s with last_report_time := now2 } else s
  else s

/-- main.py `_process_alerts`: concatenate system and docker alerts, return
early on an empty batch, otherwise attempt every alert (cooldown-gated) and
then forward exactly one aggregate event with the count and the types of all
detected alerts.  Returns the updated notifier and heartbeat, the number of
delivered alerts, and the list of aggregate events emitted. -/
def process_alerts (n : Notifier) (h : Heartbeat)
    (system_alerts docker_alerts : List Alert)
    (alertEnv : ℕ → ℚ × HttpResult) (eventResp : HttpResult) :
    Notifier × Heartbeat × ℕ × List EventPayload :=
  let all_alerts := system_alerts ++ docker_alerts
  if all_alerts = [] then (n, h, 0, [])
  else
    let sendRes := n.send_alerts all_alerts alertEnv
    let evRes := h.send_alert_event all_alerts.length (all_alerts.map Alert.type) eventResp
    (sendRes.2, evRes.2.1, sendRes.1, [evRes.2.2])

/-- All state mutated by one cycle of the agent loop. -/
structure FullState where
  agent : AgentState
  notifier : Notifier
  heartbeat : Heartbeat

/-- Environment of one cycle: the sampled snapshots, the HTTP outcomes of
every send the cycle may perform, the wall-clock readings, and a fault
point `fault` modelling an exception raised inside the `try` body of
`_perform_check` after `fault` of its state-mutating steps (values of 3 or
more mean the body ran to completion). -/
structure CycleEnv where
  stats : SystemStats
  docker : DockerMonitor
  alertEnv : ℕ → ℚ × HttpResult
  eventResp : HttpResult
  hbResp : HttpResult
  reportNow : ℚ
  reportResp : HttpResult
  reportNow2 : ℚ
  fault : ℕ

/-- main.py `_perform_check`: the counter increment is the first statement of
the `try` block; the remaining steps (alert processing, heartbeat send,
periodic report) follow, and any exception raised among them is caught by
the surrounding handler, which performs no state change of its own. -/
def perform_check (sm : SystemMonitor) (report_interval : ℚ) (env : CycleEnv)
    (st : FullState) : FullState :=
  let st1 : FullState :=
    { st with agent := { st.agent with check_count := st.agent.check_count + 1 } }
  if env.fault = 0 then st1 else
  let system_alerts := sm.check_thresholds env.stats
  let docker_alerts := env.docker.check_watched_containers
  let st2 : FullState :=
    if system_alerts ≠ [] ∨ docker_alerts ≠ [] then
      let pr := process_alerts st1.notifier st1.heartbeat system_alerts docker_alerts
        env.alertEnv env.eventResp
      { st1 with notifier := pr.1, heartbeat := pr.2.1 }
    else st1
  if env.fault = 1 then st2 else
  let st3 : FullState := { st2 with heartbeat := (st2.heartbeat.send env.hbResp).2 }
  if env.fault = 2 then st3 else
  let sendOk := (st3.notifier.send_report "" env.reportNow env.reportResp).1
  { st3 with agent := report_step st3.agent env.reportNow report_interval sendOk env.reportNow2 }

/-- The cycles performed by main.py `run`: one `_perform_check` per loop
iteration, each with its own environment. -/
def run_checks (sm : SystemMonitor) (report_interval : ℚ) (st : FullState)
    (envs : List CycleEnv) : FullState :=
  envs.foldl (fun s e => perform_check sm report_interval e s) st

/-- The admission step of the cooldown gate, as performed on the successful
path of notifier.py `send_message`: consult `_can_send_alert` and, when the
check passes, record the time with `_mark_alert_sent`; a failed check leaves
the notifier untouched. -/
def Notifier.gate_step (n : Notifier) (alert_type : String) (now : ℚ) : Bool × Notifier :=
  if n.can_send_alert alert_type now then (true, n.mark_alert_sent alert_type now)
  else (false, n)

/-- C3: for every alert type and cooldown duration, the first admission check
returns true and, through the gate, records the current time; a later check at
time `now` passes iff `now` minus the recorded time is at least the cooldown;
an admission records `now` for the checked type and changes no other key; a
suppressed check changes nothing. -/
theorem cooldown_gate_spec (n : Notifier) (ty : String) (now : ℚ) :
    (lookupA n.last_alert_sent ty = none → n.can_send_alert ty now = true) ∧
    (∀ last, lookupA n.last_alert_sent ty = some last →
      (n.can_send_alert ty now = true ↔ now - last ≥ n.cooldown_seconds)) ∧
    (n.can_send_alert ty now = true →
      (n.gate_step ty now).1 = true ∧
      lookupA (n.gate_step ty now).2.last_alert_sent ty = some now ∧
      ∀ k, k ≠ ty →
        lookupA (n.gate_step ty now).2.last_alert_sent k = lookupA n.last_alert_sent k) ∧
    (n.can_send_alert ty now = false → n.gate_step ty now = (false, n)) := by
  refine ⟨?_, ?_, ?_, ?_⟩
  · intro h
    simp [Notifier.can_send_alert, h]
  · intro last h
    simp [Notifier.can_send_alert, h]
  · intro h
    refine ⟨by simp [Notifier.gate_step, h], ?_, ?_⟩
    · simp [Notifier.gate_step, h, Notifier.mark_alert_sent, lookupA_insertA_self]
    · intro k hk
      simp [Notifier.gate_step, h, Notifier.mark_alert_sent, lookupA_insertA_ne _ _ _ _ hk]
  · intro h
    simp [Notifier.gate_step, h]

/-- Witness for C3 at concrete inputs: fresh type admitted at time 5; a type
recorded at 1000 with cooldown 1800 checked at 2800 passes iff 1800 seconds
elapsed; a suppressed check at 1060 leaves the gate state unchanged. -/
theorem cooldown_gate_spec_witness :
    ((⟨1800, []⟩ : Notifier).can_send_alert "RAM_CRITICAL" 5 = true) ∧
    ((⟨1800, [("CPU_CRITICAL", (1000 : ℚ))]⟩ : Notifier).can_send_alert "CPU_CRITICAL" 2800
        = true ↔ (2800 : ℚ) - 1000 ≥ 1800) ∧
    ((⟨1800, [("CPU_CRITICAL", (1000 : ℚ))]⟩ : Notifier).gate_step "CPU_CRITICAL" 1060
        = (false, ⟨1800, [("CPU_CRITICAL", (1000 : ℚ))]⟩)) :=
  ⟨(cooldown_gate_spec ⟨1800, []⟩ "RAM_CRITICAL" 5).1 (by decide),
   (cooldown_gate_spec ⟨1800, [("CPU_CRITICAL", 1000)]⟩ "CPU_CRITICAL" 2800).2.1 1000
     (by decide),
   (cooldown_gate_spec ⟨1800, [("CPU_CRITICAL", 1000)]⟩ "CPU_CRITICAL" 1060).2.2.2
     (by simp [Notifier.can_send_alert, lookupA]; norm_num)⟩

/-- C4: threshold evaluation returns no alerts on an error-marked snapshot;
otherwise the emitted alerts, in the fixed order CPU, RAM, DISK, are exactly
those whose sampled value strictly exceeds the threshold (equality emits
nothing), with severity high for CPU and RAM and critical for DISK. -/
theorem check_thresholds_spec (m : SystemMonitor) (stats : SystemStats) :
    (∀ e ts, stats = SystemStats.err e ts → m.check_thresholds stats = []) ∧
    (∀ cpu ram disk ru rt du dt up pc ts,
      stats = SystemStats.ok cpu ram disk ru rt du dt up pc ts →
      (m.check_thresholds stats).map (fun a => (a.type, a.severity)) =
        (if cpu > m.CPU_THRESHOLD then [("CPU_CRITICAL", "high")] else [])
        ++ (if ram > m.RAM_THRESHOLD then [("RAM_CRITICAL", "high")] else [])
        ++ (if disk > m.DISK_THRESHOLD then [("DISK_CRITICAL", "critical")] else [])) := by
  constructor
  · rintro e ts rfl
    rfl
  · rintro cpu ram disk ru rt du dt up pc ts rfl
    simp only [SystemMonitor.check_thresholds]
    split_ifs <;> simp

/-- Witness for C4: thresholds 85/90/90 with sampled CPU 92, RAM exactly 90,
DISK 50 produce only the CPU alert (the RAM boundary value emits nothing);
an error-marked snapshot produces nothing. -/
theorem check_thresholds_spec_witness :
    ((⟨85, 90, 90⟩ : SystemMonitor).check_thresholds
        (SystemStats.err "boom" 0) = []) ∧
    (((⟨85, 90, 90⟩ : SystemMonitor).check_thresholds
        (SystemStats.ok 92 90 50 1 2 3 4 5 6 7)).map (fun a => (a.type, a.severity)) =
      (if (92 : ℚ) > 85 then [("CPU_CRITICAL", "high")] else [])
      ++ (if (90 : ℚ) > 90 then [("RAM_CRITICAL", "high")] else [])
      ++ (if (50 : ℚ) > 90 then [("DISK_CRITICAL", "critical")] else [])) :=
  ⟨(check_thresholds_spec ⟨85, 90, 90⟩ (SystemStats.err "boom" 0)).1 "boom" 0 rfl,
   (check_thresholds_spec ⟨85, 90, 90⟩ (SystemStats.ok 92 90 50 1 2 3 4 5 6 7)).2
     92 90 50 1 2 3 4 5 6 7 rfl⟩

/-- C5: an empty watch list yields no alerts regardless of connectivity, and a
non-empty watch list with an unreachable Docker client yields exactly the one
critical DOCKER_CONNECTION_ERROR alert, with no per-container alerts. -/
theorem watch_connection_error_spec (m : DockerMonitor) :
    (m.watch_containers = [] → m.check_watched_containers = []) ∧
    (m.watch_containers ≠ [] → m.connected = false →
      m.check_watched_containers =
        [{ type := "DOCKER_CONNECTION_ERROR", severity := "critical",
           message := "Nao foi possivel conectar ao Docker" }]) := by
  constructor
  · intro h
    simp [DockerMonitor.check_watched_containers, h]
  · intro h hc
    simp [DockerMonitor.check_watched_containers, DockerMonitor.is_connected, h, hc]

/-- Witness for C5: an empty watch list with a reachable client yields nothing;
the watch list `db, api` with an unreachable client yields the single
connection-error alert. -/
theorem watch_connection_error_spec_witness :
    ((⟨[], true, []⟩ : DockerMonitor).check_watched_containers = []) ∧
    ((⟨["db", "api"], false, []⟩ : DockerMonitor).check_watched_containers =
      [{ type := "DOCKER_CONNECTION_ERROR", severity := "critical",
         message := "Nao foi possivel conectar ao Docker" }]) :=
  ⟨(watch_connection_error_spec ⟨[], true, []⟩).1 rfl,
   (watch_connection_error_spec ⟨["db", "api"], false, []⟩).2 (by simp) rfl⟩

/-- C6: `last_report_time` advances only on a confirmed successful report
send; a failed send leaves the whole agent state unchanged, and on the next
check at any time at least as late the report is due again. -/
theorem report_time_spec (s : AgentState) (now now2 interval : ℚ) (ok : Bool) :
    (report_step s now interval false now2 = s) ∧
    ((report_step s now interval ok now2).last_report_time ≠ s.last_report_time →
      ok = true ∧ should_send_report s.last_report_time now interval = true) ∧
    (should_send_report s.last_report_time now interval = true →
      report_step s now interval true now2 = { s with last_report_time := now2 }) ∧
    (should_send_report s.last_report_time now interval = true →
      ∀ now', now ≤ now' →
        should_send_report (report_step s now interval false now2).last_report_time
          now' interval = true) := by
  refine ⟨?_, ?_, ?_, ?_⟩
  · simp [report_step]
  · intro hne
    by_cases hdue : should_send_report s.last_report_time now interval
    · cases ok with
      | false => simp [report_step, hdue] at hne
      | true => exact ⟨rfl, hdue⟩
    · simp [report_step, hdue] at hne
  · intro hdue
    simp [report_step, hdue]
  · intro hdue now' hle
    have hfail : report_step s now interval false now2 = s := by
      simp [report_step]
    rw [hfail]
    simp only [should_send_report, decide_eq_true_eq] at hdue ⊢
    linarith

/-- Witness for C6: last report at 0, interval 3600, due at 4000; a failed
send leaves the state unchanged and the report still due at 4060. -/
theorem report_time_spec_witness :
    (report_step ⟨7, 0, true⟩ 4000 3600 false 4005 = (⟨7, 0, true⟩ : AgentState)) ∧
    (should_send_report (report_step ⟨7, 0, true⟩ 4000 3600 false 4005).last_report_time
      4060 3600 = true) :=
  ⟨(report_time_spec ⟨7, 0, true⟩ 4000 4005 3600 false).1,
   (report_time_spec ⟨7, 0, true⟩ 4000 4005 3600 false).2.2.2
     (by simp [should_send_report]; norm_num) 4060 (by norm_num)⟩

theorem runForceSend_eq (n : Notifier) (f : ForceSend) (t : ℚ) (r : HttpResult) :
    runForceSend n f t r = (r.ok2, n) := by
  cases f <;> cases r <;>
    simp only [runForceSend, Notifier.send_report, Notifier.send_startup_notification,
      Notifier.send_message, optStringTruthy, HttpResult.ok2, Bool.not_true,
      Bool.false_and, Bool.and_false, if_false, Bool.false_eq_true] <;>
    first
      | rfl
      | (rename_i code; by_cases h : code = 200 ∨ code = 201 <;> simp [h])

/-- C7: the force-send path (reports, startup notice, shutdown notice) never
consults and never mutates the cooldown state: after any sequence of force
sends the notifier state is exactly the initial one, and each send's result
is determined by its channel outcome alone (never suppressed). -/
theorem force_send_frame_spec (n : Notifier) (seq : List (ForceSend × ℚ × HttpResult)) :
    runForceSends n seq = (seq.map (fun e => e.2.2.ok2), n) := by
  induction seq generalizing n with
  | nil => rfl
  | cons e rest ih =>
      obtain ⟨f, t, r⟩ := e
      simp [runForceSends, runForceSend_eq, ih]

/-- C10: `get_stats` is total; with no attempts the success rate is 0,
otherwise it is sent over attempts times 100, rounded to two decimals. -/
theorem get_stats_success_rate_spec (h : Heartbeat) :
    (h.total_sent + h.total_failed = 0 → h.get_stats.success_rate = 0) ∧
    (h.total_sent + h.total_failed ≠ 0 →
      h.get_stats.success_rate =
        round2 (((h.total_sent : ℚ) / ((h.total_sent : ℚ) + (h.total_failed : ℚ))) * 100)) := by
  constructor
  · intro hz
    have hre : roundHalfEven 0 = 0 := by norm_num [roundHalfEven]
    simp [Heartbeat.get_stats, hz, round2, hre]
  · intro hnz
    have hpos : 0 < h.total_sent + h.total_failed := Nat.pos_of_ne_zero hnz
    simp only [Heartbeat.get_stats, if_pos hpos]
    norm_cast

/-- Witness for C10: 3 sent and 1 failed give a 75 percent success rate. -/
theorem get_stats_success_rate_spec_witness :
    (⟨"host", 2, 3, 1⟩ : Heartbeat).get_stats.success_rate =
      round2 ((((3 : ℕ) : ℚ) / (((3 : ℕ) : ℚ) + ((1 : ℕ) : ℚ))) * 100) :=
  (get_stats_success_rate_spec ⟨"host", 2, 3, 1⟩).2 (by decide)

/-- Notifier with cooldown 1800 and no recorded sends. -/
def c1Notifier : Notifier := ⟨1800, []⟩

/-- A CPU alert as produced by check_thresholds at CPU 92, threshold 85. -/
def c1Alert : Alert :=
  { type := "CPU_CRITICAL", severity := "high",
    message := "CPU em 92 limite 85", value := some 92, threshold := some 85 }

/-- Environment for the C1 scenario: the channel answers 500 to every send. -/
def c1Env : ℕ → ℚ × HttpResult := fun _ => (1000, HttpResult.status 500)

/-- C1 counterexample: a fresh alert is admitted past the cooldown gate, the
channel send fails with status 500; the batch summary is 0 delivered of the 1
detected, but the cooldown state does NOT record the admission (the type is
still absent from the map), contrary to the claim. -/
theorem send_failure_counterexample :
    (c1Notifier.send_alerts [c1Alert] c1Env).1 = 0 ∧
    lookupA (c1Notifier.send_alerts [c1Alert] c1Env).2.last_alert_sent "CPU_CRITICAL"
      = none := by
  decide

/-- C1 (amended): if a single alert is admitted past the cooldown gate and the
channel send fails, the summary is 0 delivered of 1 detected and the notifier
state is completely unchanged: no admission is recorded and the cooldown
window is not consumed. -/
theorem send_failure_leaves_gate_unchanged (n : Notifier) (a : Alert)
    (env : ℕ → ℚ × HttpResult) (t : ℚ) (r : HttpResult)
    (henv : env 0 = (t, r))
    (hadm : n.can_send_alert a.type t = true)
    (hfail : r.ok2 = false) :
    n.send_alerts [a] env = (0, n) := by
  have hsend : n.send_alert a t r = (false, n) := by
    cases r with
    | status code =>
        have hc : ¬(code = 200 ∨ code = 201) := by
          simpa [HttpResult.ok2] using hfail
        simp [Notifier.send_alert, Notifier.send_message, Option.getD, hadm, hc]
    | timeout => simp [Notifier.send_alert, Notifier.send_message, Option.getD, hadm]
    | connectionError => simp [Notifier.send_alert, Notifier.send_message, Option.getD, hadm]
    | otherError => simp [Notifier.send_alert, Notifier.send_message, Option.getD, hadm]
  simp [Notifier.send_alerts, Notifier.send_alerts_from, henv, hsend]

/-- Witness for the amended C1 at the concrete scenario of the counterexample. -/
theorem send_failure_leaves_gate_unchanged_witness :
    c1Notifier.can_send_alert c1Alert.type 1000 = true ∧
    (HttpResult.status 500).ok2 = false ∧
    c1Notifier.send_alerts [c1Alert] c1Env = (0, c1Notifier) :=
  ⟨by decide, by decide,
   send_failure_leaves_gate_unchanged c1Notifier c1Alert c1Env 1000 (HttpResult.status 500)
     rfl (by decide) (by decide)⟩

/-- C8: for every non-empty batch, exactly one aggregate telemetry event is
emitted, carrying the total number of detected alerts and the types of all of
them, independently of the per-alert admission or delivery outcomes
(the environment `alertEnv` is universally quantified). -/
theorem aggregate_event_spec (n : Notifier) (h : Heartbeat)
    (system_alerts docker_alerts : List Alert)
    (alertEnv : ℕ → ℚ × HttpResult) (eventResp : HttpResult)
    (hne : system_alerts ++ docker_alerts ≠ []) :
    (process_alerts n h system_alerts docker_alerts alertEnv eventResp).2.2.2 =
      [{ alert_count := (system_alerts ++ docker_alerts).length,
         alert_types := (system_alerts ++ docker_alerts).map Alert.type }] := by
  simp [process_alerts, hne, Heartbeat.send_alert_event]

/-- Notifier that admitted CPU_CRITICAL at time 1000 (cooldown 1800). -/
def c8Notifier : Notifier := ⟨1800, [("CPU_CRITICAL", 1000)]⟩

/-- Fresh heartbeat counters for the C8 scenario. -/
def c8Heartbeat : Heartbeat := ⟨"host", 0, 0, 0⟩

/-- Environment for C8: the re-detection is sent 60 seconds after the recorded
admission and the channel would answer 200. -/
def c8Env : ℕ → ℚ × HttpResult := fun _ => (1060, HttpResult.status 200)

/-- Witness for C8 at the cooldown re-detection scenario: the same CPU
condition detected again 60 s into a 1800 s cooldown yields zero dispatched
notifications, yet the single aggregate event still reports 1 detected alert
of type CPU_CRITICAL. -/
theorem aggregate_event_spec_witness :
    ((process_alerts c8Notifier c8Heartbeat [c1Alert] [] c8Env (HttpResult.status 200)).2.2.2 =
      [{ alert_count := ([c1Alert] ++ ([] : List Alert)).length,
         alert_types := ([c1Alert] ++ ([] : List Alert)).map Alert.type }]) ∧
    (process_alerts c8Notifier c8Heartbeat [c1Alert] [] c8Env (HttpResult.status 200)).2.2.1
      = 0 :=
  ⟨aggregate_event_spec c8Notifier c8Heartbeat [c1Alert] [] c8Env (HttpResult.status 200)
     (by simp),
   by
    have hcs : c8Notifier.can_send_alert "CPU_CRITICAL" 1060 = false := by
      simp [c8Notifier, c1Alert, Notifier.can_send_alert, lookupA]
      norm_num
    have hsend : c8Notifier.send_alert c1Alert 1060 (HttpResult.status 200)
        = (false, c8Notifier) := by
      simp [Notifier.send_alert, Notifier.send_message, optStringTruthy, Option.getD, hcs,
        c1Alert]
    simp [process_alerts, Notifier.send_alerts, Notifier.send_alerts_from, c8Env, hsend]⟩

theorem report_step_check_count (s : AgentState) (now interval : ℚ) (ok : Bool) (now2 : ℚ) :
    (report_step s now interval ok now2).check_count = s.check_count := by
  simp only [report_step]
  split_ifs <;> rfl

theorem perform_check_check_count (sm : SystemMonitor) (interval : ℚ) (env : CycleEnv)
    (st : FullState) :
    (perform_check sm interval env st).agent.check_count = st.agent.check_count + 1 := by
  by_cases h0 : env.fault = 0
  · simp [perform_check, h0]
  · by_cases h3 : sm.check_thresholds env.stats ≠ [] ∨
        env.docker.check_watched_containers ≠ []
    <;> by_cases h1 : env.fault = 1
    <;> by_cases h2 : env.fault = 2
    <;> simp [perform_check, h0, h1, h2, h3, report_step_check_count]

/-- C9: `check_count` increments by exactly one per cycle, whatever the cycle
environment does — including an exception raised at any fault point of the
body (caught by the handler) — so after the given cycles it equals the
initial value plus the number of cycles. -/
theorem check_count_per_cycle (sm : SystemMonitor) (interval : ℚ) (st : FullState)
    (envs : List CycleEnv) :
    (run_checks sm interval st envs).agent.check_count
      = st.agent.check_count + envs.length := by
  induction envs generalizing st with
  | nil => simp [run_checks]
  | cons e rest ih =>
      simp only [run_checks, List.foldl_cons] at ih ⊢
      rw [ih (perform_check sm interval e st), perform_check_check_count]
      simp only [List.length_cons]
      omega

theorem foldl_append_eq_bind {α β : Type} (f : α → List β) :
    ∀ (l : List α) (acc : List β),
      l.foldl (fun a w => a ++ f w) acc = acc ++ l.flatMap f
  | [], acc => by simp
  | x :: xs, acc => by
      simp only [List.foldl_cons, List.flatMap_cons]
      rw [foldl_append_eq_bind f xs (acc ++ f x), List.append_assoc]

theorem countP_bind {α β : Type} (p : β → Bool) (f : α → List β) :
    ∀ l : List α, (l.flatMap f).countP p = (l.map fun w => (f w).countP p).sum
  | [] => by simp
  | x :: xs => by
      simp [List.flatMap_cons, List.countP_append, countP_bind p f xs]

theorem watchedNameChecks_container (cmap : List (String × ContainerInfo)) (w : String) :
    ∀ a ∈ watchedNameChecks cmap w, a.container = some w := by
  intro a ha
  unfold watchedNameChecks at ha
  cases hl : lookupA cmap w with
  | none =>
      rw [hl] at ha
      simp at ha
      subst ha
      rfl
  | some c =>
      rw [hl] at ha
      simp only [List.mem_append] at ha
      rcases ha with ha | ha
      · by_cases hs : c.status = "running"
        · simp [hs] at ha
        · simp [hs] at ha
          subst ha
          rfl
      · by_cases hh : c.health = some "unhealthy"
        · simp [hh] at ha
          subst ha
          rfl
        · simp [hh] at ha

theorem countP_checks_other (cmap : List (String × ContainerInfo)) (w name T : String)
    (hw : w ≠ name) :
    (watchedNameChecks cmap w).countP
      (fun a => decide (a.type = T ∧ a.container = some name)) = 0 := by
  rw [List.countP_eq_zero]
  intro a ha
  have hc := watchedNameChecks_container cmap w a ha
  simp [hc, hw]

theorem countP_checks_self_notRunning (cmap : List (String × ContainerInfo))
    (name : String) (c : ContainerInfo)
    (hl : lookupA cmap name = some c) (hs : c.status ≠ "running") :
    (watchedNameChecks cmap name).countP
      (fun a => decide (a.type = "CONTAINER_NOT_RUNNING" ∧ a.container = some name)) = 1 := by
  simp only [watchedNameChecks, hl]
  by_cases hh : c.health = some "unhealthy" <;>
    simp [hs, hh, List.countP_append, List.countP_cons]

theorem countP_checks_self_unhealthy (cmap : List (String × ContainerInfo))
    (name : String) (c : ContainerInfo)
    (hl : lookupA cmap name = some c) (hs : c.status ≠ "running") :
    (watchedNameChecks cmap name).countP
      (fun a => decide (a.type = "CONTAINER_UNHEALTHY" ∧ a.container = some name)) =
      (if c.health = some "unhealthy" then 1 else 0) := by
  simp only [watchedNameChecks, hl]
  by_cases hh : c.health = some "unhealthy" <;>
    simp [hs, hh, List.countP_append, List.countP_cons]

theorem sum_map_eq_count_mul (g : String → ℕ) (name : String)
    (hg : ∀ w, w ≠ name → g w = 0) :
    ∀ l : List String, (l.map g).sum = g name * l.count name
  | [] => by simp
  | x :: xs => by
      by_cases hx : x = name
      · subst hx
        rw [List.map_cons, List.sum_cons, sum_map_eq_count_mul g x hg xs,
          List.count_cons_self, Nat.mul_succ]
        omega
      · rw [List.map_cons, List.sum_cons, sum_map_eq_count_mul g name hg xs, hg x hx,
          List.count_cons_of_ne (Ne.symm hx)]
        omega

/-- C2 (amended): for a watched name present in the snapshot with a
non-running status, one pass emits exactly one CONTAINER_NOT_RUNNING alert
for that name, and additionally emits one CONTAINER_UNHEALTHY alert for the
same name exactly when the record also carries health `unhealthy` — the
health check is independent of the status check, so a stopped container that
still reports unhealthy raises both alerts in the same pass. -/
theorem watched_not_running_spec (m : DockerMonitor) (name : String) (c : ContainerInfo)
    (hconn : m.connected = true)
    (hcount : m.watch_containers.count name = 1)
    (hlook : lookupA (containerMap m.containers) name = some c)
    (hstat : c.status ≠ "running") :
    (m.check_watched_containers).countP
        (fun a => decide (a.type = "CONTAINER_NOT_RUNNING" ∧ a.container = some name)) = 1 ∧
    (m.check_watched_containers).countP
        (fun a => decide (a.type = "CONTAINER_UNHEALTHY" ∧ a.container = some name)) =
      (if c.health = some "unhealthy" then 1 else 0) := by
  have hne : m.watch_containers ≠ [] := by
    intro h
    rw [h] at hcount
    simp at hcount
  have hcheck : m.check_watched_containers =
      m.watch_containers.flatMap (fun w => watchedNameChecks (containerMap m.containers) w) := by
    simp only [DockerMonitor.check_watched_containers, DockerMonitor.is_connected, hconn,
      DockerMonitor.get_all_containers]
    rw [if_neg hne]
    simp only [Bool.not_true, Bool.false_eq_true, if_false, if_true]
    exact foldl_append_eq_bind _ m.watch_containers []
  constructor
  · rw [hcheck, countP_bind,
      sum_map_eq_count_mul _ name
        (fun w hw => countP_checks_other (containerMap m.containers) w name _ hw),
      hcount, Nat.mul_one,
      countP_checks_self_notRunning (containerMap m.containers) name c hlook hstat]
  · rw [hcheck, countP_bind,
      sum_map_eq_count_mul _ name
        (fun w hw => countP_checks_other (containerMap m.containers) w name _ hw),
      hcount, Nat.mul_one,
      countP_checks_self_unhealthy (containerMap m.containers) name c hlook hstat]

/-- Watched monitor holding a single container that is both exited and
reporting health `unhealthy`. -/
def c2Monitor : DockerMonitor :=
  ⟨["db"], true, [⟨"1", "db", "exited", "img", some "unhealthy"⟩]⟩

/-- C2 counterexample: with container `db` exited AND reporting health
`unhealthy`, one pass emits a CONTAINER_NOT_RUNNING alert and ALSO a
CONTAINER_UNHEALTHY alert for the same name, refuting the claim that a
stopped container never also reports unhealthy in the same pass. -/
theorem stopped_unhealthy_counterexample :
    c2Monitor.check_watched_containers.countP
        (fun a => decide (a.type = "CONTAINER_NOT_RUNNING" ∧ a.container = some "db")) = 1 ∧
    c2Monitor.check_watched_containers.countP
        (fun a => decide (a.type = "CONTAINER_UNHEALTHY" ∧ a.container = some "db")) = 1 := by
  decide

/-- Witness for the amended C2 at the concrete exited-and-unhealthy scenario. -/
theorem watched_not_running_spec_witness :
    c2Monitor.check_watched_containers.countP
        (fun a => decide (a.type = "CONTAINER_NOT_RUNNING" ∧ a.container = some "db")) = 1 ∧
    c2Monitor.check_watched_containers.countP
        (fun a => decide (a.type = "CONTAINER_UNHEALTHY" ∧ a.container = some "db")) =
      (if (⟨"1", "db", "exited", "img", some "unhealthy"⟩ : ContainerInfo).health
          = some "unhealthy" then 1 else 0) :=
  watched_not_running_spec c2Monitor "db" ⟨"1", "db", "exited", "img", some "unhealthy"⟩
    rfl (by decide) (by decide) (by decide)

end Vigilo
